import Mathlib

/-!
Verification of the SPI transport adapter of the BME280 driver
(`src/spi.rs`), as a shallow embedding in Lean 4.

The adapter speaks the sensor's register protocol over a full-duplex
serial bus: it frames register reads and writes into single bus
transfers and maps bus-level failures into a layered error type.  We
model the bus as an oracle that, given the outbound byte sequence and
the requested inbound length, either supplies inbound bytes or fails
with the bus's native error.  Every adapter operation returns both its
Rust result and the list of bus transactions it issued, so that framing
and "exactly one transfer" properties are directly statable.
-/

namespace BME280Spi

/-- One physical full-duplex bus transaction: the bytes clocked out and
the length of the inbound buffer handed to the bus. -/
structure Transaction where
  outbound : List Nat
  inboundLen : Nat
  deriving DecidableEq, Repr

/-- Model of an `embedded_hal` SPI device: `transfer out n` performs one
full-duplex transfer clocking out the bytes `out` with an inbound buffer
of length `n`, returning the inbound bytes the bus captured, or the
bus implementation's native error. -/
structure SpiModel (ε : Type) where
  transfer : List Nat → Nat → Except ε (List Nat)

/-- Error which occurred during an SPI transaction (`SPIError` in
src/spi.rs, lines 139-144): a single variant wrapping the underlying
SPI implementation's error. -/
inductive SPIError (ε : Type) where
  | spi : ε → SPIError ε
  deriving DecidableEq, Repr

/-- The device-level error type `Error` of the crate.  Its `Bus` variant
is the one the transport layer produces (used at src/spi.rs lines 117 and
134).  The remaining variants are modelled from the spec: "calibration
missing, invalid configuration, compensation overflow belong to the
Device Engine" — they originate outside the transport adapter, whose
defining module is not part of the transport source. -/
inductive Error (ε : Type) where
  | bus : ε → Error ε
  | invalidData : Error ε
  | compensationFailed : Error ε
  | noCalibrationData : Error ε
  deriving DecidableEq, Repr

/-- Modelled from the spec: the sensor-defined fixed width of the
pressure/temperature/humidity measurement burst (constant
`BME280_P_T_H_DATA_LEN` imported from the crate's shared module, which
is outside the transport source; value per the sensor's register map). -/
def BME280_P_T_H_DATA_LEN : Nat := 8

/-- Modelled from the spec: the fixed width of the pressure/temperature
calibration burst (constant `BME280_P_T_CALIB_DATA_LEN` from the crate's
shared module; value per the sensor's register map). -/
def BME280_P_T_CALIB_DATA_LEN : Nat := 26

/-- Modelled from the spec: the fixed width of the humidity calibration
burst (constant `BME280_H_CALIB_DATA_LEN` from the crate's shared
module; value per the sensor's register map). -/
def BME280_H_CALIB_DATA_LEN : Nat := 7

/-- The contents of a caller-supplied inbound buffer after a transfer:
the bus wrote `src` into the front of `buf`; positions the bus did not
reach keep their prior contents, and the buffer never grows. -/
def overlay : List Nat → List Nat → List Nat
  | [], _ => []
  | b :: bs, [] => b :: overlay bs []
  | _ :: bs, s :: ss => s :: overlay bs ss

/-- Embedding of `SPIInterface::read_any_register` (src/spi.rs lines
127-136): one full-duplex transfer with outbound `[register]` and the
caller's buffer `data` inbound; a bus error `e` is mapped to
`Error::Bus(SPIError::SPI(e))`; on success the filled buffer is
returned.  The second component records the bus transactions issued. -/
def read_any_register {ε : Type} (spi : SpiModel ε) (register : Nat)
    (data : List Nat) :
    Except (Error (SPIError ε)) (List Nat) × List Transaction :=
  (match spi.transfer [register] data.length with
    | Except.ok ds => Except.ok (overlay data ds)
    | Except.error e => Except.error (Error.bus (SPIError.spi e)),
   [⟨[register], data.length⟩])

/-- Embedding of `SPIInterface::read_register` (src/spi.rs lines 79-83):
a one-byte buffer `[0u8]` is read via `read_any_register`, and on
success `result[0]` is returned. -/
def read_register {ε : Type} (spi : SpiModel ε) (register : Nat) :
    Except (Error (SPIError ε)) Nat × List Transaction :=
  let r := read_any_register spi register (List.replicate 1 0)
  (match r.1 with
    | Except.ok result => Except.ok (result.headD 0)
    | Except.error e => Except.error e,
   r.2)

/-- Embedding of `SPIInterface::read_data` (src/spi.rs lines 85-92): a
`BME280_P_T_H_DATA_LEN`-byte zero buffer read via `read_any_register`,
returned whole on success. -/
def read_data {ε : Type} (spi : SpiModel ε) (register : Nat) :
    Except (Error (SPIError ε)) (List Nat) × List Transaction :=
  read_any_register spi register (List.replicate BME280_P_T_H_DATA_LEN 0)

/-- Embedding of `SPIInterface::read_pt_calib_data` (src/spi.rs lines
94-101): a `BME280_P_T_CALIB_DATA_LEN`-byte zero buffer read via
`read_any_register`, returned whole on success. -/
def read_pt_calib_data {ε : Type} (spi : SpiModel ε) (register : Nat) :
    Except (Error (SPIError ε)) (List Nat) × List Transaction :=
  read_any_register spi register (List.replicate BME280_P_T_CALIB_DATA_LEN 0)

/-- Embedding of `SPIInterface::read_h_calib_data` (src/spi.rs lines
103-110): a `BME280_H_CALIB_DATA_LEN`-byte zero buffer read via
`read_any_register`, returned whole on success. -/
def read_h_calib_data {ε : Type} (spi : SpiModel ε) (register : Nat) :
    Except (Error (SPIError ε)) (List Nat) × List Transaction :=
  read_any_register spi register (List.replicate BME280_H_CALIB_DATA_LEN 0)

/-- Embedding of `SPIInterface::write_register` (src/spi.rs lines
112-119): one full-duplex transfer with outbound
`[register & 0x7f, payload]` and an empty (`&mut []`) inbound buffer; a
bus error is wrapped as in the reads; on success `Ok(())`. -/
def write_register {ε : Type} (spi : SpiModel ε) (register : Nat)
    (payload : Nat) :
    Except (Error (SPIError ε)) Unit × List Transaction :=
  let frame := [register &&& 0x7f, payload]
  (match spi.transfer frame 0 with
    | Except.ok _ => Except.ok ()
    | Except.error e => Except.error (Error.bus (SPIError.spi e)),
   [⟨frame, 0⟩])

/-- Register access state for SPI (`SPIInterface`, src/spi.rs lines
65-70): holds the concrete SPI device. -/
structure SPIInterface (SPI : Type) where
  spi : SPI

/-- The shared engine state the handle wraps (`BME280Common` from the
crate's shared module): an interface value and an optional calibration
record.  The calibration payload type is outside the transport source,
so it is a type parameter `κ` here. -/
structure BME280Common (I : Type) (κ : Type) where
  interface : I
  calibration : Option κ

/-- Representation of a BME280 over SPI (src/spi.rs lines 12-16). -/
structure BME280 (SPI : Type) (κ : Type) where
  common : BME280Common (SPIInterface SPI) κ

/-- Embedding of `BME280::new` (src/spi.rs lines 24-31): wraps the bus
handle, sets `calibration: None`, and returns `Ok`; no bus transaction
is issued (the body never touches the bus), hence the empty transcript. -/
def BME280.new {SPI κ ε : Type} (spi : SPI) :
    Except (Error ε) (BME280 SPI κ) × List Transaction :=
  (Except.ok { common := { interface := { spi := spi }, calibration := none } },
   [])

/-- Modelled from the spec: oversampling settings named by the spec's
default configuration (the `Oversampling` type lives in the crate's
shared module, outside the transport source). -/
inductive Oversampling where
  | oversampling1X
  | oversampling2X
  | oversampling4X
  | oversampling8X
  | oversampling16X
  deriving DecidableEq, Repr

/-- Modelled from the spec: IIR filter coefficients named by the spec's
default configuration (the `IIRFilter` type lives in the crate's shared
module, outside the transport source). -/
inductive IIRFilter where
  | off
  | coefficient2
  | coefficient4
  | coefficient8
  | coefficient16
  deriving DecidableEq, Repr

/-- Modelled from the spec: a device configuration value holding the
oversampling choices and the IIR filter coefficient, with builder
methods, as used by `init` (src/spi.rs lines 39-43).  The concrete
`Configuration` type lives in the crate's shared module, outside the
transport source. -/
structure Configuration where
  temperatureOversampling : Oversampling
  pressureOversampling : Oversampling
  humidityOversampling : Oversampling
  iirFilter : IIRFilter
  deriving DecidableEq, Repr

/-- Modelled from the spec: the `Default` configuration value the
builders in `init` start from. -/
def Configuration.default : Configuration :=
  { temperatureOversampling := Oversampling.oversampling1X,
    pressureOversampling := Oversampling.oversampling1X,
    humidityOversampling := Oversampling.oversampling1X,
    iirFilter := IIRFilter.off }

/-- Modelled from the spec: builder setting the humidity oversampling. -/
def Configuration.with_humidity_oversampling (c : Configuration)
    (o : Oversampling) : Configuration :=
  { c with humidityOversampling := o }

/-- Modelled from the spec: builder setting the pressure oversampling. -/
def Configuration.with_pressure_oversampling (c : Configuration)
    (o : Oversampling) : Configuration :=
  { c with pressureOversampling := o }

/-- Modelled from the spec: builder setting the temperature oversampling. -/
def Configuration.with_temperature_oversampling (c : Configuration)
    (o : Oversampling) : Configuration :=
  { c with temperatureOversampling := o }

/-- Modelled from the spec: builder setting the IIR filter coefficient. -/
def Configuration.with_iir_filter (c : Configuration)
    (f : IIRFilter) : Configuration :=
  { c with iirFilter := f }

/-- Embedding of `BME280::init` (src/spi.rs lines 36-45): delegates to
the shared engine's `init` — here an explicit parameter `engineInit`,
since `BME280Common::init` lives outside the transport source — passing
the default configuration with humidity oversampling 1x, pressure
oversampling 16x, temperature oversampling 2x and IIR filter
coefficient 16. -/
def BME280.init {SPI κ δ ρ : Type} (b : BME280 SPI κ)
    (engineInit : BME280Common (SPIInterface SPI) κ → δ → Configuration → ρ)
    (delay : δ) : ρ :=
  engineInit b.common delay
    ((((Configuration.default.with_humidity_oversampling
          Oversampling.oversampling1X).with_pressure_oversampling
          Oversampling.oversampling16X).with_temperature_oversampling
          Oversampling.oversampling2X).with_iir_filter
          IIRFilter.coefficient16)

/-- Embedding of `BME280::init_with_config` (src/spi.rs lines 48-54):
delegates to the shared engine's `init` with the caller's
configuration. -/
def BME280.init_with_config {SPI κ δ ρ : Type} (b : BME280 SPI κ)
    (engineInit : BME280Common (SPIInterface SPI) κ → δ → Configuration → ρ)
    (delay : δ) (config : Configuration) : ρ :=
  engineInit b.common delay config

/-- A mock bus that always succeeds, filling the inbound buffer with the
byte 0x4b. -/
def mockOk : SpiModel Nat :=
  { transfer := fun _ n => Except.ok (List.replicate n 0x4b) }

/-- A mock bus that always fails with the native bus error 7. -/
def mockFail : SpiModel Nat :=
  { transfer := fun _ _ => Except.error 7 }

/-- A transfer never changes the length of the caller's inbound buffer. -/
theorem overlay_length (buf src : List Nat) :
    (overlay buf src).length = buf.length := by
  induction buf generalizing src with
  | nil => simp [overlay]
  | cons b bs ih =>
    cases src with
    | nil => simp [overlay, ih]
    | cons s ss => simp [overlay, ih]

/-- The first byte of a one-byte zero buffer after a transfer is the
first inbound byte when the bus supplied one, and 0 otherwise. -/
theorem overlay_one_headD (ds : List Nat) :
    (overlay (List.replicate 1 0) ds).headD 0 = ds.headD 0 := by
  cases ds <;> rfl

/-- C1 counterexample: at the 7-bit address 0x50, `read_register` issues
the outbound byte 0x50 unchanged, not 0x50 ||| 0x80 = 0xD0 as the claim
states — the adapter never sets the read-marker bit. -/
theorem read_register_marker_counterexample :
    (read_register mockOk 0x50).2 = [⟨[0x50], 1⟩] ∧
      (read_register mockOk 0x50).2 ≠ [⟨[0x50 ||| 0x80], 1⟩] := by
  refine ⟨rfl, ?_⟩
  decide

/-- C1 (amended): for every address A, `read_register(A)` performs
exactly one full-duplex transfer whose outbound phase transmits the
single byte A unchanged (the caller is responsible for the read-marker
bit), and on success returns exactly the byte captured in the first
inbound position. -/
theorem read_register_framing {ε : Type} (spi : SpiModel ε) (A : Nat) :
    (read_register spi A).2 = [⟨[A], 1⟩] ∧
      ∀ ds, spi.transfer [A] 1 = Except.ok ds →
        (read_register spi A).1 = Except.ok (ds.headD 0) := by
  refine ⟨rfl, fun ds h => ?_⟩
  simp only [read_register, read_any_register, List.length_replicate, h]
  exact congrArg Except.ok (overlay_one_headD ds)

/-- C1 witness: on a mock bus answering 0x4b, `read_register 0xD0`
issues the one transaction with outbound `[0xD0]` and returns 0x4b. -/
theorem read_register_framing_witness :
    (read_register mockOk 0xD0).2 = [⟨[0xD0], 1⟩] ∧
      (read_register mockOk 0xD0).1 = Except.ok 0x4b :=
  ⟨(read_register_framing mockOk 0xD0).1,
   (read_register_framing mockOk 0xD0).2 (List.replicate 1 0x4b) rfl⟩

/-- C2: for every address A and value V, `write_register(A, V)` performs
exactly one full-duplex transfer whose outbound phase is the two-byte
sequence `[A &&& 0x7f, V]`, with an inbound buffer of length zero (so no
inbound byte is inspected), and on success returns unit. -/
theorem write_register_framing {ε : Type} (spi : SpiModel ε) (A V : Nat) :
    (write_register spi A V).2 = [⟨[A &&& 0x7f, V], 0⟩] ∧
      ∀ ds, spi.transfer [A &&& 0x7f, V] 0 = Except.ok ds →
        (write_register spi A V).1 = Except.ok () := by
  refine ⟨rfl, fun ds h => ?_⟩
  simp [write_register, h]

/-- C2 witness: `write_register 0xF4 0x27` on the succeeding mock bus
issues the one transaction with outbound `[0x74, 0x27]` and returns
unit. -/
theorem write_register_framing_witness :
    (write_register mockOk 0xF4 0x27).2 = [⟨[0x74, 0x27], 0⟩] ∧
      (write_register mockOk 0xF4 0x27).1 = Except.ok () :=
  ⟨(write_register_framing mockOk 0xF4 0x27).1,
   (write_register_framing mockOk 0xF4 0x27).2 [] rfl⟩

/-- C3: any bus-level failure e during any transport operation surfaces
as `Error.bus (SPIError.spi e)` — the innermost wrapped value is e
unchanged, after both wrapping layers, for `read_register`, each block
read, and `write_register`. -/
theorem bus_error_preserved {ε : Type} (spi : SpiModel ε) (A V : Nat)
    (e : ε) :
    (spi.transfer [A] 1 = Except.error e →
      (read_register spi A).1 = Except.error (Error.bus (SPIError.spi e))) ∧
    (spi.transfer [A] BME280_P_T_H_DATA_LEN = Except.error e →
      (read_data spi A).1 = Except.error (Error.bus (SPIError.spi e))) ∧
    (spi.transfer [A] BME280_P_T_CALIB_DATA_LEN = Except.error e →
      (read_pt_calib_data spi A).1 =
        Except.error (Error.bus (SPIError.spi e))) ∧
    (spi.transfer [A] BME280_H_CALIB_DATA_LEN = Except.error e →
      (read_h_calib_data spi A).1 =
        Except.error (Error.bus (SPIError.spi e))) ∧
    (spi.transfer [A &&& 0x7f, V] 0 = Except.error e →
      (write_register spi A V).1 =
        Except.error (Error.bus (SPIError.spi e))) := by
  refine ⟨fun h => ?_, fun h => ?_, fun h => ?_, fun h => ?_, fun h => ?_⟩
  · simp [read_register, read_any_register, h]
  · simp [read_data, read_any_register, h]
  · simp [read_pt_calib_data, read_any_register, h]
  · simp [read_h_calib_data, read_any_register, h]
  · simp [write_register, h]

/-- C3 witness: on the failing mock bus (native error 7), all five
operations surface `Error.bus (SPIError.spi 7)`. -/
theorem bus_error_preserved_witness :
    (read_register mockFail 0xD0).1 =
        Except.error (Error.bus (SPIError.spi 7)) ∧
      (read_data mockFail 0xF7).1 =
        Except.error (Error.bus (SPIError.spi 7)) ∧
      (read_pt_calib_data mockFail 0x88).1 =
        Except.error (Error.bus (SPIError.spi 7)) ∧
      (read_h_calib_data mockFail 0xE1).1 =
        Except.error (Error.bus (SPIError.spi 7)) ∧
      (write_register mockFail 0xF4 0x27).1 =
        Except.error (Error.bus (SPIError.spi 7)) :=
  ⟨(bus_error_preserved mockFail 0xD0 0x27 7).1 rfl,
   (bus_error_preserved mockFail 0xF7 0x27 7).2.1 rfl,
   (bus_error_preserved mockFail 0x88 0x27 7).2.2.1 rfl,
   (bus_error_preserved mockFail 0xE1 0x27 7).2.2.2.1 rfl,
   (bus_error_preserved mockFail 0xF4 0x27 7).2.2.2.2 rfl⟩

/-- C4: for every address A, each block read issues one transfer
requesting an inbound buffer of exactly its class's documented length —
`read_data` requests `BME280_P_T_H_DATA_LEN` bytes,
`read_pt_calib_data` requests `BME280_P_T_CALIB_DATA_LEN` bytes,
`read_h_calib_data` requests `BME280_H_CALIB_DATA_LEN` bytes — and on
success returns a block of exactly that length. -/
theorem read_block_lengths {ε : Type} (spi : SpiModel ε) (A : Nat) :
    ((read_data spi A).2 = [⟨[A], BME280_P_T_H_DATA_LEN⟩] ∧
      ∀ out, (read_data spi A).1 = Except.ok out →
        out.length = BME280_P_T_H_DATA_LEN) ∧
    ((read_pt_calib_data spi A).2 = [⟨[A], BME280_P_T_CALIB_DATA_LEN⟩] ∧
      ∀ out, (read_pt_calib_data spi A).1 = Except.ok out →
        out.length = BME280_P_T_CALIB_DATA_LEN) ∧
    ((read_h_calib_data spi A).2 = [⟨[A], BME280_H_CALIB_DATA_LEN⟩] ∧
      ∀ out, (read_h_calib_data spi A).1 = Except.ok out →
        out.length = BME280_H_CALIB_DATA_LEN) := by
  refine ⟨⟨rfl, fun out h => ?_⟩, ⟨rfl, fun out h => ?_⟩,
    ⟨rfl, fun out h => ?_⟩⟩
  · simp only [read_data, read_any_register] at h
    rcases hds : spi.transfer [A]
        (List.replicate BME280_P_T_H_DATA_LEN 0).length with e | ds <;>
      rw [hds] at h
    · cases h
    · cases h
      rw [overlay_length, List.length_replicate]
  · simp only [read_pt_calib_data, read_any_register] at h
    rcases hds : spi.transfer [A]
        (List.replicate BME280_P_T_CALIB_DATA_LEN 0).length with e | ds <;>
      rw [hds] at h
    · cases h
    · cases h
      rw [overlay_length, List.length_replicate]
  · simp only [read_h_calib_data, read_any_register] at h
    rcases hds : spi.transfer [A]
        (List.replicate BME280_H_CALIB_DATA_LEN 0).length with e | ds <;>
      rw [hds] at h
    · cases h
    · cases h
      rw [overlay_length, List.length_replicate]

/-- C4 witness: on the succeeding mock bus the three block reads record
inbound lengths 8, 26 and 7 and return blocks of those lengths. -/
theorem read_block_lengths_witness :
    ((read_data mockOk 0xF7).2 = [⟨[0xF7], BME280_P_T_H_DATA_LEN⟩] ∧
      (List.replicate 8 0x4b).length = BME280_P_T_H_DATA_LEN) ∧
    ((read_pt_calib_data mockOk 0x88).2 =
        [⟨[0x88], BME280_P_T_CALIB_DATA_LEN⟩] ∧
      (List.replicate 26 0x4b).length = BME280_P_T_CALIB_DATA_LEN) ∧
    ((read_h_calib_data mockOk 0xE1).2 =
        [⟨[0xE1], BME280_H_CALIB_DATA_LEN⟩] ∧
      (List.replicate 7 0x4b).length = BME280_H_CALIB_DATA_LEN) :=
  ⟨⟨(read_block_lengths mockOk 0xF7).1.1,
    (read_block_lengths mockOk 0xF7).1.2 (List.replicate 8 0x4b) rfl⟩,
   ⟨(read_block_lengths mockOk 0x88).2.1.1,
    (read_block_lengths mockOk 0x88).2.1.2 (List.replicate 26 0x4b) rfl⟩,
   ⟨(read_block_lengths mockOk 0xE1).2.2.1,
    (read_block_lengths mockOk 0xE1).2.2.2 (List.replicate 7 0x4b) rfl⟩⟩

/-- C5: every transport operation issues exactly one physical bus
transfer per call, for every bus (succeeding or failing alike): its
recorded transcript has length one. -/
theorem one_transfer_per_call {ε : Type} (spi : SpiModel ε) (A V : Nat) :
    (read_register spi A).2.length = 1 ∧
      (read_data spi A).2.length = 1 ∧
      (read_pt_calib_data spi A).2.length = 1 ∧
      (read_h_calib_data spi A).2.length = 1 ∧
      (write_register spi A V).2.length = 1 :=
  ⟨rfl, rfl, rfl, rfl, rfl⟩

/-- C6: for every device state, engine, and delay provider, `init` is
exactly `init_with_config` applied to the default configuration with
humidity oversampling 1x, pressure oversampling 16x, temperature
oversampling 2x, and IIR filter coefficient 16 — both delegate to the
same engine, differing only in the configuration value passed. -/
theorem init_eq_init_with_default_config {SPI κ δ ρ : Type}
    (b : BME280 SPI κ)
    (engineInit : BME280Common (SPIInterface SPI) κ → δ → Configuration → ρ)
    (delay : δ) :
    BME280.init b engineInit delay =
      BME280.init_with_config b engineInit delay
        ((((Configuration.default.with_humidity_oversampling
              Oversampling.oversampling1X).with_pressure_oversampling
              Oversampling.oversampling16X).with_temperature_oversampling
              Oversampling.oversampling2X).with_iir_filter
              IIRFilter.coefficient16) :=
  rfl

/-- C7: for every bus handle, `new` returns `Ok` of a handle whose
calibration state is `none`, and issues no bus transaction (empty
transcript). -/
theorem new_always_ok {SPI κ ε : Type} (spi : SPI) :
    @BME280.new SPI κ ε spi =
      (Except.ok
        { common := { interface := { spi := spi }, calibration := none } },
       ([] : List Transaction)) :=
  rfl

/-- C8: the transport-level error type `SPIError` has a single variant
wrapping the bus's native error, and every error any transport operation
returns is of that kind (a bus error wrapped through both layers). -/
theorem spi_error_single_kind {ε : Type} (spi : SpiModel ε) (A V : Nat) :
    (∀ x : SPIError ε, ∃ e, x = SPIError.spi e) ∧
    (∀ d, (read_register spi A).1 = Except.error d →
      ∃ e, d = Error.bus (SPIError.spi e)) ∧
    (∀ d, (read_data spi A).1 = Except.error d →
      ∃ e, d = Error.bus (SPIError.spi e)) ∧
    (∀ d, (read_pt_calib_data spi A).1 = Except.error d →
      ∃ e, d = Error.bus (SPIError.spi e)) ∧
    (∀ d, (read_h_calib_data spi A).1 = Except.error d →
      ∃ e, d = Error.bus (SPIError.spi e)) ∧
    (∀ d, (write_register spi A V).1 = Except.error d →
      ∃ e, d = Error.bus (SPIError.spi e)) := by
  refine ⟨fun x => ?_, fun d h => ?_, fun d h => ?_, fun d h => ?_,
    fun d h => ?_, fun d h => ?_⟩
  · cases x with
    | spi e => exact ⟨e, rfl⟩
  · simp only [read_register, read_any_register] at h
    rcases hds : spi.transfer [A] (List.replicate 1 0).length with e | ds <;>
      rw [hds] at h
    · cases h; exact ⟨e, rfl⟩
    · cases h
  · simp only [read_data, read_any_register] at h
    rcases hds : spi.transfer [A]
        (List.replicate BME280_P_T_H_DATA_LEN 0).length with e | ds <;>
      rw [hds] at h
    · cases h; exact ⟨e, rfl⟩
    · cases h
  · simp only [read_pt_calib_data, read_any_register] at h
    rcases hds : spi.transfer [A]
        (List.replicate BME280_P_T_CALIB_DATA_LEN 0).length with e | ds <;>
      rw [hds] at h
    · cases h; exact ⟨e, rfl⟩
    · cases h
  · simp only [read_h_calib_data, read_any_register] at h
    rcases hds : spi.transfer [A]
        (List.replicate BME280_H_CALIB_DATA_LEN 0).length with e | ds <;>
      rw [hds] at h
    · cases h; exact ⟨e, rfl⟩
    · cases h
  · simp only [write_register] at h
    rcases hds : spi.transfer [A &&& 0x7f, V] 0 with e | ds <;>
      rw [hds] at h
    · cases h; exact ⟨e, rfl⟩
    · cases h

/-- C8 witness: on the failing mock bus, the error `read_register`
returns is bus-wrapped, by the theorem at native error 7. -/
theorem spi_error_single_kind_witness :
    ∃ e, Error.bus (SPIError.spi 7) = Error.bus (SPIError.spi e) :=
  (spi_error_single_kind mockFail 0xD0 0x27).2.1
    (Error.bus (SPIError.spi 7)) rfl

/-- C9: for every address A and value V, `write_register(A, V)` equals
`write_register(A &&& 0x7f, V)` in both result and issued transactions:
the top bit of the caller-supplied address never matters because the
adapter masks it unconditionally. -/
theorem write_register_mask_idempotent {ε : Type} (spi : SpiModel ε)
    (A V : Nat) :
    write_register spi A V = write_register spi (A &&& 0x7f) V := by
  have hmask : A &&& 0x7f &&& 0x7f = A &&& 0x7f := by
    rw [Nat.land_assoc]
    norm_num
  simp only [write_register, hmask]

/-- C10: for every address A and value V, the single transfer issued by
`write_register(A, V)` requests an inbound buffer of length zero, so no
inbound byte is captured during a write. -/
theorem write_register_no_inbound {ε : Type} (spi : SpiModel ε)
    (A V : Nat) :
    (write_register spi A V).2.map Transaction.inboundLen = [0] :=
  rfl

end BME280Spi

